import Mathlib

/-!
Verification development for the bedtime-story pipeline (src/main.py).

The Python source is shallowly embedded: pure helpers become Lean
functions, the calls to the external text-generation client become
oracle fields (the prompt-building string templates are stateless glue, so
each call site is abstracted by an oracle taking exactly the data the
prompt is built from), Python exceptions become an explicit error type
threaded through `Except`, and the two library random primitives
(random.sample, random.shuffle, random.choice) are driven by arbitrary
streams of natural numbers.  Python numbers are modelled as exact
unnormalized fractions (`Frac`), interpreted into the rationals for the
specification-level statements.
-/

set_option autoImplicit false

/-- Errors a request can raise: `gen` models a failure of the
text-generation client (`GenerationError`, including the RuntimeError
raised by `call_model` for a missing API key), the others model the
Python runtime errors that untyped operations can raise. -/
inductive Err where
  | gen (msg : String)
  | typeError
  | attributeError
  | valueError
deriving DecidableEq, Repr

/-- Exact fractions with an `Int` numerator and a `Nat` denominator,
kept unnormalized so that all arithmetic reduces definitionally in the
kernel.  Every fraction built by the embedding has a positive
denominator; comparisons are value-based (cross multiplication), which
matches the value semantics of Python numbers. -/
structure Frac where
  num : Int
  den : Nat
deriving DecidableEq, Repr

/-- Interpretation of a fraction as a rational number. -/
def Frac.toRat (f : Frac) : ℚ := (f.num : ℚ) / (f.den : ℚ)

/-- Fraction from a natural number. -/
def Frac.ofNat (n : Nat) : Frac := ⟨n, 1⟩

/-- Exact addition of fractions. -/
def Frac.add (x y : Frac) : Frac := ⟨x.num * y.den + y.num * x.den, x.den * y.den⟩

/-- Negation of a fraction. -/
def Frac.neg (x : Frac) : Frac := ⟨-x.num, x.den⟩

/-- Exact division of a fraction by a natural number. -/
def Frac.divNat (x : Frac) (n : Nat) : Frac := ⟨x.num, x.den * n⟩

/-- Multiplication by a power of ten with an integer exponent. -/
def Frac.mulPow10 (f : Frac) (ex : Int) : Frac :=
  match ex with
  | Int.ofNat n => ⟨f.num * (10 ^ n : Nat), f.den⟩
  | Int.negSucc n => ⟨f.num, f.den * 10 ^ (n + 1)⟩

/-- Value comparison of fractions by cross multiplication; agrees with
the rational-number order whenever both denominators are positive. -/
def Frac.le (x y : Frac) : Bool := decide (x.num * (y.den : Int) ≤ y.num * (x.den : Int))

/-- Value test for zero; agrees with equality to zero whenever the
denominator is positive. -/
def Frac.isZero (x : Frac) : Bool := x.num == 0

/-- JSON values as produced by the Python json module; numbers are
modelled as exact fractions. -/
inductive Json where
  | null
  | bool (b : Bool)
  | num (q : Frac)
  | str (s : String)
  | arr (elems : List Json)
  | obj (fields : List (String × Json))

/-- Skip JSON whitespace, as the Python json parser does. -/
def skipWs : List Char → List Char
  | [] => []
  | c :: cs => if c = ' ' ∨ c = '\t' ∨ c = '\n' ∨ c = '\r' then skipWs cs else c :: cs

/-- Value of a hexadecimal digit. -/
def hexVal (c : Char) : Option Nat :=
  if c.isDigit then some (c.toNat - 48)
  else if 'a' ≤ c ∧ c ≤ 'f' then some (c.toNat - 87)
  else if 'A' ≤ c ∧ c ≤ 'F' then some (c.toNat - 55)
  else none

/-- Body of a JSON string literal (the opening quote already consumed):
returns the decoded characters and the input following the closing
quote.  Fuel-driven so that the definition reduces definitionally; a
fuel of one more than the input length always suffices since every step
consumes at least one character.  Lone surrogate escapes are rejected
(the model does not combine surrogate pairs). -/
def parseStringBody : Nat → List Char → Option (List Char × List Char)
  | 0, _ => none
  | _ + 1, [] => none
  | fuel + 1, c :: cs =>
    if c = '"' then some ([], cs)
    else if c = '\\' then
      match cs with
      | [] => none
      | e :: cs2 =>
        let decoded : Option (Char × List Char) :=
          if e = '"' then some ('"', cs2)
          else if e = '\\' then some ('\\', cs2)
          else if e = '/' then some ('/', cs2)
          else if e = 'b' then some (Char.ofNat 8, cs2)
          else if e = 'f' then some (Char.ofNat 12, cs2)
          else if e = 'n' then some ('\n', cs2)
          else if e = 'r' then some ('\r', cs2)
          else if e = 't' then some ('\t', cs2)
          else if e = 'u' then
            match cs2 with
            | h1 :: h2 :: h3 :: h4 :: cs3 =>
              match hexVal h1, hexVal h2, hexVal h3, hexVal h4 with
              | some a, some b, some c2, some d =>
                let code := ((a * 16 + b) * 16 + c2) * 16 + d
                if 0xD800 ≤ code ∧ code ≤ 0xDFFF then none
                else some (Char.ofNat code, cs3)
              | _, _, _, _ => none
            | _ => none
          else none
        match decoded with
        | none => none
        | some (ch, rest) =>
          match parseStringBody fuel rest with
          | some (s, r) => some (ch :: s, r)
          | none => none
    else if c.toNat < 32 then none
    else
      match parseStringBody fuel cs with
      | some (s, r) => some (c :: s, r)
      | none => none

/-- Digits to a natural number. -/
def digitsToNat (ds : List Char) : Nat :=
  ds.foldl (fun n c => n * 10 + (c.toNat - 48)) 0

/-- Parse a JSON number (strict JSON grammar) into an exact fraction. -/
def parseNumber (cs : List Char) : Option (Frac × List Char) :=
  let signed : Bool × List Char :=
    match cs with
    | '-' :: t => (true, t)
    | _ => (false, cs)
  let neg := signed.1
  let cs1 := signed.2
  let intPart : Option (Nat × List Char) :=
    match cs1 with
    | '0' :: t => if (t.head?.map Char.isDigit).getD false then none else some (0, t)
    | c :: t =>
      if c.isDigit then
        let sp := (c :: t).span Char.isDigit
        some (digitsToNat sp.1, sp.2)
      else none
    | [] => none
  match intPart with
  | none => none
  | some (ip, cs2) =>
    let fracPart : Option (Frac × List Char) :=
      match cs2 with
      | '.' :: t =>
        let sp := t.span Char.isDigit
        if sp.1 = [] then none
        else some (⟨digitsToNat sp.1, 10 ^ sp.1.length⟩, sp.2)
      | _ => some (⟨0, 1⟩, cs2)
    match fracPart with
    | none => none
    | some (fp, cs3) =>
      let expPart : Option (Int × List Char) :=
        match cs3 with
        | e :: t =>
          if e = 'e' ∨ e = 'E' then
            let se : Int × List Char :=
              match t with
              | '+' :: u => (1, u)
              | '-' :: u => (-1, u)
              | _ => (1, t)
            let sp := se.2.span Char.isDigit
            if sp.1 = [] then none
            else some (se.1 * (digitsToNat sp.1 : Int), sp.2)
          else some (0, cs3)
        | [] => some (0, cs3)
      match expPart with
      | none => none
      | some (ex, cs4) =>
        let mag : Frac := (Frac.add ⟨ip, 1⟩ fp).mulPow10 ex
        some (if neg then mag.neg else mag, cs4)

/-- Insert a key/value pair into an association list with Python dict
semantics: an existing key keeps its position but its value is
replaced, a new key is appended. -/
def insertKV : List (String × Json) → String → Json → List (String × Json)
  | [], k, v => [(k, v)]
  | (k', v') :: t, k, v =>
    if k' = k then (k', v) :: t else (k', v') :: insertKV t k v

/-- Mode of the recursive-descent JSON parser: a value, the members of
an object after the opening brace, or the items of an array after the
opening bracket. -/
inductive PMode where
  | val
  | objBody (acc : List (String × Json))
  | arrBody (acc : List Json)

/-- Recursive-descent parser for the strict JSON grammar accepted by
the Python json module (without the nonstandard NaN/Infinity
extensions).  Fuel-driven single recursion so that it reduces
definitionally; every call edge either consumes input or alternates
into a consuming state, so fuel `2 * length + 2` always suffices. -/
def parseM : Nat → PMode → List Char → Option (Json × List Char)
  | 0, _, _ => none
  | fuel + 1, PMode.val, cs =>
    match skipWs cs with
    | [] => none
    | c :: cs2 =>
      if c = '\x7b' then
        match skipWs cs2 with
        | '\x7d' :: cs3 => some (Json.obj [], cs3)
        | _ => parseM fuel (PMode.objBody []) cs2
      else if c = '[' then
        match skipWs cs2 with
        | ']' :: cs3 => some (Json.arr [], cs3)
        | _ => parseM fuel (PMode.arrBody []) cs2
      else if c = '"' then
        match parseStringBody (cs2.length + 1) cs2 with
        | some (s, r) => some (Json.str (String.mk s), r)
        | none => none
      else if c = 't' then
        if ['r', 'u', 'e'].isPrefixOf cs2 then some (Json.bool true, cs2.drop 3) else none
      else if c = 'f' then
        if ['a', 'l', 's', 'e'].isPrefixOf cs2 then some (Json.bool false, cs2.drop 4) else none
      else if c = 'n' then
        if ['u', 'l', 'l'].isPrefixOf cs2 then some (Json.null, cs2.drop 3) else none
      else
        match parseNumber (c :: cs2) with
        | some (q, r) => some (Json.num q, r)
        | none => none
  | fuel + 1, PMode.objBody acc, cs =>
    match skipWs cs with
    | '"' :: cs2 =>
      match parseStringBody (cs2.length + 1) cs2 with
      | none => none
      | some (k, cs3) =>
        match skipWs cs3 with
        | ':' :: cs4 =>
          match parseM fuel PMode.val cs4 with
          | none => none
          | some (v, cs5) =>
            match skipWs cs5 with
            | ',' :: cs6 => parseM fuel (PMode.objBody (insertKV acc (String.mk k) v)) cs6
            | '\x7d' :: cs6 => some (Json.obj (insertKV acc (String.mk k) v), cs6)
            | _ => none
        | _ => none
    | _ => none
  | fuel + 1, PMode.arrBody acc, cs =>
    match parseM fuel PMode.val cs with
    | none => none
    | some (v, cs2) =>
      match skipWs cs2 with
      | ',' :: cs3 => parseM fuel (PMode.arrBody (acc ++ [v])) cs3
      | ']' :: cs3 => some (Json.arr (acc ++ [v]), cs3)
      | _ => none

/-- Model of json.loads: parse one JSON value and require that only
whitespace follows; `none` models a raised json.JSONDecodeError. -/
def pyLoads (s : String) : Option Json :=
  match parseM (2 * s.length + 2) PMode.val s.toList with
  | some (v, rest) => if skipWs rest = [] then some v else none
  | none => none

/-- Model of the re.search call in parse_json_safe, src/main.py line
204: the pattern matches greedily from the first opening brace to the
last closing brace (DOTALL), provided some closing brace follows an
opening brace; otherwise there is no match. -/
def extractBraces (s : String) : Option String :=
  let cs := s.toList
  match cs.findIdx? (fun c => c = '\x7b') with
  | none => none
  | some i =>
    match cs.reverse.findIdx? (fun c => c = '\x7d') with
    | none => none
    | some rk =>
      let j := cs.length - 1 - rk
      if i < j then some (String.mk ((cs.drop i).take (j - i + 1))) else none

/-- The tagged error object parse_json_safe returns when it cannot
produce a JSON value (src/main.py lines 209 and 210). -/
def errObj (kind : String) (raw : String) : Json :=
  Json.obj [("error", Json.str kind), ("raw", Json.str raw)]

/-- Model of parse_json_safe, src/main.py lines 198 to 210: try a
direct parse; on failure extract the first-brace-to-last-brace
substring and try to parse that; if both fail return a tagged error
object instead of raising. -/
def parse_json_safe (text : String) : Json :=
  match pyLoads text with
  | some v => v
  | none =>
    match extractBraces text with
    | some sub =>
      match pyLoads sub with
      | some v => v
      | none => errObj "invalid_json" text
    | none => errObj "no_json" text

example : pyLoads "\x7b\"a\":1\x7d" = some (Json.obj [("a", Json.num ⟨1, 1⟩)]) := rfl
example : parse_json_safe "Here is the result: \x7b\"a\":1\x7d Thanks!" = Json.obj [("a", Json.num ⟨1, 1⟩)] := rfl
example : parse_json_safe "hello world" = errObj "no_json" "hello world" := rfl
example : parse_json_safe "\x7bnot json\x7d" = errObj "invalid_json" "\x7bnot json\x7d" := rfl
example : pyLoads " [1, 2.5, true, null, \"x\"] " = some (Json.arr [Json.num ⟨1, 1⟩, Json.num ⟨25, 10⟩, Json.bool true, Json.null, Json.str "x"]) := rfl

/-- Substring test on character lists, modelling the Python `in`
operator on strings. -/
def hasSub (needle : List Char) : List Char → Bool
  | [] => needle.isPrefixOf []
  | c :: t => needle.isPrefixOf (c :: t) || hasSub needle t

/-- Model of the Python str.lower call (faithful on ASCII input). -/
def pyLower (s : String) : List Char := s.toList.map Char.toLower

/-- The mood keyword table MOOD_KEYWORDS, src/main.py lines 49 to 56;
the list order is the dict insertion order. -/
def MOOD_KEYWORDS : List (String × List String) :=
  [("calm", ["calm", "sleepy", "tired", "cozy", "bedtime", "relaxed"]),
   ("anxious", ["scared", "lost", "anxious", "afraid", "worried", "nervous"]),
   ("excited", ["excited", "adventure", "energetic", "happy", "bouncy"]),
   ("sad", ["sad", "down", "lonely", "miss", "cry"]),
   ("curious", ["curious", "wonder", "ask", "how", "why", "what"]),
   ("playful", ["fun", "silly", "joke", "play"])]

/-- The fixed priority order of the direct-mention check, src/main.py
line 80. -/
def MOOD_PRIORITY : List String :=
  ["calm", "anxious", "excited", "sad", "curious", "playful"]

/-- Model of detect_mood, src/main.py lines 72 to 88: keyword scoring
(one point per keyword occurring as a substring), then the
direct-mention override in the fixed priority order, then the highest
score (Python max keeps the first maximal item in iteration order),
defaulting to calm when all scores are zero. -/
def detect_mood (user_text : String) : String :=
  let lower := pyLower user_text
  let scores := MOOD_KEYWORDS.map
    (fun p => (p.1, (p.2.filter (fun kw => hasSub kw.toList lower)).length))
  match MOOD_PRIORITY.find? (fun m => hasSub m.toList lower) with
  | some m => m
  | none =>
    match scores with
    | [] => "calm"
    | s :: rest =>
      let best := rest.foldl (fun b a => if a.2 > b.2 then a else b) s
      if best.2 = 0 then "calm" else best.1

example : detect_mood "I feel very anxious about tomorrow" = "anxious" := rfl
example : detect_mood "" = "calm" := rfl
example : detect_mood "a sleepy cozy evening" = "calm" := rfl
example : detect_mood "xyzzy" = "calm" := rfl

/-- The theme catalog THEMES, src/main.py lines 33 to 40. -/
def THEMES : List String :=
  ["Adventure", "Animal Friends", "Problem Solving", "Friendship", "Magic/Fantasy",
   "Space", "Family", "Courage", "Kindness", "Honesty", "Justice", "Teamwork",
   "Be Yourself", "Love", "Hope", "Hard Work", "Loyalty", "Persistence",
   "Compassion", "Generosity", "Holidays", "Peace", "Equality", "Siblings",
   "Festival", "Summer Break", "Facing Fears", "Gratitude", "Self-Confidence",
   "Helping Others"]

/-- The setting catalog SETTINGS, src/main.py lines 42 to 47. -/
def SETTINGS : List String :=
  ["Farm", "Ocean", "Jungle", "Forest", "Neighborhood", "Backyard", "Park",
   "Mountain", "Beach", "School", "Space", "Castle", "Under the Bed",
   "Treehouse", "Desert", "Arctic", "Magical Land", "Playground", "Circus",
   "Library"]

/-- Model of random.sample(pool, k): draw k elements without
replacement, each draw picking an index into the remaining pool from
the random stream; `none` models the ValueError raised when k exceeds
the population size. -/
def pySample {α : Type} (rand : Nat → Nat) : Nat → List α → Option (List α)
  | 0, _ => some []
  | k + 1, pool =>
    if h : 0 < pool.length then
      match pySample (fun n => rand (n + 1)) k (pool.eraseIdx (rand 0 % pool.length)) with
      | some rest => some (pool.get ⟨rand 0 % pool.length, Nat.mod_lt _ h⟩ :: rest)
      | none => none
    else none

/-- Model of random.shuffle: a permutation of the list obtained by
drawing all elements without replacement, driven by the random stream.
The fallback branch is unreachable because a full-length sample always
succeeds. -/
def pyShuffle {α : Type} (rand : Nat → Nat) (l : List α) : List α :=
  match pySample rand l.length l with
  | some l2 => l2
  | none => l

/-- Model of select_themes, src/main.py lines 91 to 96, generalized
over the catalog so that the failure behavior of random.sample on a
too-small population is expressible; the code instantiates it with
THEMES. -/
def select_themes_from (catalog : List String) (randS randH : Nat → Nat) :
    Except Err (List String) :=
  let others := catalog.filter (fun t => t != "Problem Solving")
  match pySample randS 3 others with
  | none => Except.error Err.valueError
  | some chosen => Except.ok (pyShuffle randH (chosen ++ ["Problem Solving"]))

/-- Model of select_themes, src/main.py lines 91 to 96. -/
def select_themes (randS randH : Nat → Nat) : Except Err (List String) :=
  select_themes_from THEMES randS randH

/-- Model of select_setting, src/main.py lines 98 to 99:
random.choice picks one element of the non-empty catalog. -/
def select_setting (rand : Nat → Nat) : String :=
  SETTINGS.getD (rand 0 % SETTINGS.length) ""

example : select_themes (fun _ => 0) (fun _ => 0) =
    Except.ok ["Adventure", "Animal Friends", "Friendship", "Problem Solving"] := rfl
example : select_setting (fun _ => 21) = "Ocean" := rfl

/-- Test whether a Json value is a given string, modelling Python
equality between a string and an arbitrary value. -/
def jsonEqStr : Json → String → Bool
  | Json.str s, t => s == t
  | _, _ => false

/-- Model of the Python `in` operator applied to a parsed JSON value:
key membership for dicts, element membership for lists, substring test
for strings; numbers, booleans and null are not containers and raise a
TypeError. -/
def pyContains (needle : String) : Json → Except Err Bool
  | Json.obj fs => Except.ok (fs.any (fun p => p.1 == needle))
  | Json.arr xs => Except.ok (xs.any (fun x => jsonEqStr x needle))
  | Json.str s => Except.ok (hasSub needle.toList s.toList)
  | _ => Except.error Err.typeError

/-- Model of the Python dict.get(key, default) call: only dicts have a
get attribute, anything else raises an AttributeError. -/
def pyGet : Json → String → Json → Except Err Json
  | Json.obj fs, k, dflt => Except.ok (((fs.find? (fun p => p.1 == k)).map Prod.snd).getD dflt)
  | _, _, _ => Except.error Err.attributeError

/-- Python truthiness of a parsed JSON value. -/
def pyTruthy : Json → Bool
  | Json.null => false
  | Json.bool b => b
  | Json.num q => !q.isZero
  | Json.str s => s != ""
  | Json.arr xs => !xs.isEmpty
  | Json.obj fs => !fs.isEmpty

/-- Numeric value of a JSON value for Python sum: numbers count as
themselves, booleans as 0 or 1, anything else raises a TypeError. -/
def jsonToNumber : Json → Except Err Frac
  | Json.num q => Except.ok q
  | Json.bool b => Except.ok (if b then Frac.ofNat 1 else Frac.ofNat 0)
  | _ => Except.error Err.typeError

/-- Model of the average computation on src/main.py line 290:
`sum(scores.values()) / len(scores) if scores else 0`.  A falsy value
(empty dict, but also 0, empty string, empty list, None, False) gives
average 0; a truthy dict sums its values and divides by its length; a
truthy non-dict raises an AttributeError at `.values()`; a non-numeric
dict value raises a TypeError inside sum. -/
def pyAvg (scores : Json) : Except Err Frac :=
  if pyTruthy scores = false then Except.ok (Frac.ofNat 0)
  else
    match scores with
    | Json.obj fs => do
      let vals ← fs.mapM (fun p => jsonToNumber p.2)
      Except.ok ((vals.foldl Frac.add (Frac.ofNat 0)).divNat fs.length)
    | _ => Except.error Err.attributeError

/-- Model of the `[:5]` slice on src/main.py line 296: lists and
strings can be sliced, anything else raises a TypeError. -/
def pySlice5 : Json → Except Err Json
  | Json.arr xs => Except.ok (Json.arr (xs.take 5))
  | Json.str s => Except.ok (Json.str (String.mk (s.toList.take 5)))
  | _ => Except.error Err.typeError

/-- The fixed fallback judgement substituted when the judge output has
no usable scores, src/main.py lines 273 to 286. -/
def fallback_judgement : Json :=
  Json.obj
    [("scores", Json.obj
      [("AgeAppropriateness", Json.num ⟨8, 1⟩),
       ("ToneCalmness", Json.num ⟨7, 1⟩),
       ("ImageryQuality", Json.num ⟨7, 1⟩),
       ("SentenceSimplicity", Json.num ⟨7, 1⟩),
       ("EmotionalClarity", Json.num ⟨7, 1⟩),
       ("ProblemSolvingPresence", Json.num ⟨8, 1⟩),
       ("StructureCompleteness", Json.num ⟨7, 1⟩),
       ("SleepinessFactor", Json.num ⟨7, 1⟩)]),
     ("critique", Json.str "Judge failed to return JSON; using fallback scores."),
     ("revisions", Json.arr
      [Json.str "Ensure the problem solving steps are explicit.",
       Json.str "Make ending more calming."])]

/-- The oracles standing for the external text-generation client (one
field per call site, taking exactly the request data the corresponding
prompt is built from) and for the random streams consumed by theme and
setting selection.  An `Except.error` models a GenerationError raised
by call_model. -/
structure Oracles where
  storyGen : String → String → List String → String → Except Err String
  judgeRaw : Nat → String → Except Err String
  rewriteGen : Nat → String → Json → Except Err String
  cardsGen : String → Except Err String
  soundGen : String → String → Except Err String
  randThemes : Nat → Nat
  randShuffle : Nat → Nat
  randSetting : Nat → Nat

/-- Outcome of one iteration of the judge loop: the judge call or the
verdict processing raised an error, or the story was accepted, or it
was rejected and a rewrite attempted (recording a client error of the
rewrite call if one occurred). -/
inductive RoundResult where
  | err (e : Err)
  | accept (usedFallback : Bool) (avg : Frac)
  | reject (usedFallback : Bool) (avg : Frac) (rewriteError : Option Err)
deriving DecidableEq, Repr

/-- Whether a round outcome is a rejection (and hence started a
rewrite). -/
def RoundResult.isReject : RoundResult → Bool
  | RoundResult.reject _ _ _ => true
  | _ => false

/-- One observed iteration of the judge loop: the value of the Python
loop variable `attempt` and what the iteration did. -/
structure Round where
  attempt : Nat
  res : RoundResult
deriving DecidableEq, Repr

/-- Number of rounds of a trace that rejected the draft and hence
started a rewrite. -/
def countRejects (tr : List Round) : Nat :=
  (tr.filter (fun r => r.res.isReject)).length

/-- Model of the judge loop `for attempt in range(3)` of
generate_and_refine_story, src/main.py lines 266 to 316, instrumented
with a trace recording each iteration (each iteration performs exactly
one judge evaluation).  The fuel argument models the numbers remaining
in the range; the fuel-exhausted branch mirrors the Python for loop
falling through without a break, returning the current story and the
last verdict. -/
def judgeLoopAux (o : Oracles) :
    Nat → Nat → String → Json → List Round → List Round × Except Err (String × Json)
  | 0, _, story, lastVerdict, tr => (tr, Except.ok (story, lastVerdict))
  | fuel + 1, attempt, story, _, tr =>
    match o.judgeRaw attempt story with
    | Except.error e => (tr ++ [⟨attempt, RoundResult.err e⟩], Except.error e)
    | Except.ok raw =>
      let parsed := parse_json_safe raw
      match pyContains "scores" parsed with
      | Except.error e => (tr ++ [⟨attempt, RoundResult.err e⟩], Except.error e)
      | Except.ok hasScores =>
        let judge_json := if hasScores then parsed else fallback_judgement
        let usedFb := !hasScores
        match (do pyAvg (← pyGet judge_json "scores" (Json.obj [])) : Except Err Frac) with
        | Except.error e => (tr ++ [⟨attempt, RoundResult.err e⟩], Except.error e)
        | Except.ok avg =>
          if Frac.le ⟨15, 2⟩ avg || attempt == 2 then
            (tr ++ [⟨attempt, RoundResult.accept usedFb avg⟩], Except.ok (story, judge_json))
          else
            match (do pySlice5 (← pyGet judge_json "revisions" (Json.arr [])) : Except Err Json) with
            | Except.error e => (tr ++ [⟨attempt, RoundResult.err e⟩], Except.error e)
            | Except.ok revs =>
              match o.rewriteGen attempt story revs with
              | Except.error e =>
                (tr ++ [⟨attempt, RoundResult.reject usedFb avg (some e)⟩], Except.error e)
              | Except.ok story2 =>
                judgeLoopAux o fuel (attempt + 1) story2 judge_json
                  (tr ++ [⟨attempt, RoundResult.reject usedFb avg none⟩])

/-- The tuple returned by generate_and_refine_story (src/main.py line
335), extended with the trace of judge-loop rounds observed while
producing it. -/
structure StoryResult where
  story : String
  judge : Json
  trading_cards : Json
  soundtrack : Json
  mood : String
  themes : List String
  setting : String
  rounds : List Round

/-- Model of generate_and_refine_story, src/main.py lines 250 to 335:
mood detection, theme and setting selection, the initial story call,
the bounded judge loop, then the two derivation calls, each parsed with
`try: json.loads except: parse_json_safe`.  Any client failure
propagates as the error of the whole request. -/
def generate_and_refine_story (o : Oracles) (user_input : String) :
    Except Err StoryResult := do
  let mood := detect_mood user_input
  let themes ← select_themes o.randThemes o.randShuffle
  let setting := select_setting o.randSetting
  let story ← o.storyGen user_input mood themes setting
  let out := judgeLoopAux o 3 0 story Json.null []
  match out.2 with
  | Except.error e => Except.error e
  | Except.ok (finalStory, judge_json) =>
    let cards_raw ← o.cardsGen finalStory
    let cards_json :=
      match pyLoads cards_raw with
      | some v => v
      | none => parse_json_safe cards_raw
    let sound_raw ← o.soundGen mood setting
    let soundtrack_json :=
      match pyLoads sound_raw with
      | some v => v
      | none => parse_json_safe sound_raw
    Except.ok ⟨finalStory, judge_json, cards_json, soundtrack_json, mood, themes, setting, out.1⟩

/-- A concrete oracle family used in witnesses: every client call
succeeds, and the judge always answers with the given fixed text. -/
def baseOracle (judge : String) : Oracles where
  storyGen := fun _ _ _ _ => Except.ok "draft"
  judgeRaw := fun _ _ => Except.ok judge
  rewriteGen := fun a _ _ => Except.ok (String.append "rewrite" (toString a))
  cardsGen := fun _ => Except.ok "no json here"
  soundGen := fun _ _ => Except.ok "also not json"
  randThemes := fun _ => 0
  randShuffle := fun _ => 0
  randSetting := fun _ => 0

example :
    judgeLoopAux (baseOracle "\x7b\"scores\": \x7b\"a\": 1\x7d\x7d") 3 0 "draft" Json.null [] =
      ([⟨0, RoundResult.reject false ⟨1, 1⟩ none⟩,
        ⟨1, RoundResult.reject false ⟨1, 1⟩ none⟩,
        ⟨2, RoundResult.accept false ⟨1, 1⟩⟩],
       Except.ok ("rewrite1", Json.obj [("scores", Json.obj [("a", Json.num ⟨1, 1⟩)])])) := rfl

example :
    judgeLoopAux (baseOracle "5") 3 0 "draft" Json.null [] =
      ([⟨0, RoundResult.err Err.typeError⟩], Except.error Err.typeError) := rfl

example :
    judgeLoopAux (baseOracle "gibberish") 3 0 "draft" Json.null [] =
      ([⟨0, RoundResult.reject true ⟨58, 8⟩ none⟩,
        ⟨1, RoundResult.reject true ⟨58, 8⟩ none⟩,
        ⟨2, RoundResult.accept true ⟨58, 8⟩⟩],
       Except.ok ("rewrite1", fallback_judgement)) := rfl

example :
    judgeLoopAux (baseOracle "\x7b\"scores\": \x7b\"a\": 9\x7d\x7d") 3 0 "draft" Json.null [] =
      ([⟨0, RoundResult.accept false ⟨9, 1⟩⟩],
       Except.ok ("draft", Json.obj [("scores", Json.obj [("a", Json.num ⟨9, 1⟩)])])) := rfl
theorem Frac.den_pos_add {x y : Frac} (hx : 0 < x.den) (hy : 0 < y.den) :
    0 < (x.add y).den := Nat.mul_pos hx hy

theorem Frac.toRat_add {x y : Frac} (hx : 0 < x.den) (hy : 0 < y.den) :
    (x.add y).toRat = x.toRat + y.toRat := by
  have hx' : (x.den : ℚ) ≠ 0 := by positivity
  have hy' : (y.den : ℚ) ≠ 0 := by positivity
  rw [Frac.toRat, Frac.toRat, Frac.toRat, div_add_div _ _ hx' hy']
  show ((x.num * y.den + y.num * x.den : Int) : ℚ) / ((x.den * y.den : Nat) : ℚ) = _
  push_cast
  ring_nf

theorem Frac.toRat_divNat {x : Frac} (n : Nat) :
    (x.divNat n).toRat = x.toRat / (n : ℚ) := by
  rw [Frac.toRat, Frac.toRat, Frac.divNat, div_div]
  push_cast
  ring_nf

theorem Frac.le_iff {x y : Frac} (hx : 0 < x.den) (hy : 0 < y.den) :
    (Frac.le x y = true) ↔ x.toRat ≤ y.toRat := by
  have hx' : (0 : ℚ) < (x.den : ℚ) := by positivity
  have hy' : (0 : ℚ) < (y.den : ℚ) := by positivity
  rw [Frac.le, decide_eq_true_iff, Frac.toRat, Frac.toRat, div_le_div_iff₀ hx' hy']
  constructor
  · intro h
    exact_mod_cast h
  · intro h
    exact_mod_cast h

theorem Frac.isZero_iff {x : Frac} (hx : 0 < x.den) :
    (x.isZero = true) ↔ x.toRat = 0 := by
  have hx' : (x.den : ℚ) ≠ 0 := by positivity
  rw [Frac.isZero, beq_iff_eq, Frac.toRat, div_eq_zero_iff]
  constructor
  · intro h
    left
    exact_mod_cast h
  · intro h
    rcases h with h | h
    · exact_mod_cast h
    · exact absurd h hx'

/-- The spec-level Acceptance Evaluator: arithmetic mean of a rubric
scores map (0 for an empty map), as computed on src/main.py line 290. -/
def mean_scores (scores : List (String × ℚ)) : ℚ :=
  if scores.isEmpty then 0 else (scores.map Prod.snd).sum / (scores.length : ℚ)

/-- The spec-level acceptance decision of src/main.py line 292: accept
when the mean reaches 7.5 or the round is the last allowed one
(`attempt == 2`, MAX_ROUNDS = 3). -/
def accept_story (scores : List (String × ℚ)) (attempt : Nat) : Bool :=
  decide ((15 : ℚ) / 2 ≤ mean_scores scores) || attempt == 2

/-- Values of a mapped scores object under mapM, for linking the loop
computation with the spec-level evaluator. -/
theorem mapM_jsonToNumber (fs : List (String × Frac)) :
    (fs.map (fun p => (p.1, Json.num p.2))).mapM (fun p => jsonToNumber p.2) =
      Except.ok (fs.map Prod.snd) := by
  induction fs with
  | nil => rfl
  | cons p t ih =>
    rw [List.map_cons, List.mapM_cons, ih]
    rfl

/-- Folding fraction addition computes the rational sum, with a
positive denominator, whenever all inputs have positive denominators. -/
theorem foldl_add_toRat (l : List Frac) :
    ∀ init : Frac, (∀ f ∈ l, 0 < f.den) → 0 < init.den →
      0 < (l.foldl Frac.add init).den ∧
      (l.foldl Frac.add init).toRat = init.toRat + (l.map Frac.toRat).sum := by
  induction l with
  | nil => intro init _ hinit; simpa using hinit
  | cons x t ih =>
    intro init hl hinit
    have hx : 0 < x.den := hl x (List.mem_cons_self x t)
    have ht : ∀ f ∈ t, 0 < f.den := fun f hf => hl f (List.mem_cons_of_mem x hf)
    have hstep : 0 < (init.add x).den := Frac.den_pos_add hinit hx
    obtain ⟨hden, hsum⟩ := ih (init.add x) ht hstep
    refine ⟨hden, ?_⟩
    rw [List.foldl_cons] at *
    rw [hsum, Frac.toRat_add hinit hx]
    simp [List.sum_cons]
    ring

/-- The loop average computation on a well-formed numeric scores map
yields exactly the spec-level arithmetic mean. -/
theorem pyAvg_obj_num (fs : List (String × Frac)) (h : ∀ p ∈ fs, 0 < p.2.den) :
    ∃ a : Frac, pyAvg (Json.obj (fs.map (fun p => (p.1, Json.num p.2)))) = Except.ok a ∧
      0 < a.den ∧ a.toRat = mean_scores (fs.map (fun p => (p.1, p.2.toRat))) := by
  cases fs with
  | nil =>
    refine ⟨Frac.ofNat 0, rfl, Nat.one_pos, ?_⟩
    simp [Frac.ofNat, Frac.toRat, mean_scores]
  | cons p t =>
    have hpy : pyAvg (Json.obj ((p :: t).map (fun q => (q.1, Json.num q.2)))) =
        Except.ok ((((p :: t).map Prod.snd).foldl Frac.add (Frac.ofNat 0)).divNat
          (((p :: t).map (fun q => (q.1, Json.num q.2))).length)) := by
      rw [pyAvg, if_neg]
      · rw [mapM_jsonToNumber (p :: t)]
        rfl
      · simp [pyTruthy]
    have hmem : ∀ f ∈ (p :: t).map Prod.snd, 0 < f.den := by
      intro f hf
      obtain ⟨q, hq, rfl⟩ := List.mem_map.mp hf
      exact h q hq
    obtain ⟨hden, hsum⟩ :=
      foldl_add_toRat ((p :: t).map Prod.snd) (Frac.ofNat 0) hmem Nat.one_pos
    refine ⟨_, hpy, ?_, ?_⟩
    · exact Nat.mul_pos hden (by simp)
    · rw [Frac.toRat_divNat, hsum]
      have h0 : (Frac.ofNat 0).toRat = 0 := by simp [Frac.ofNat, Frac.toRat]
      rw [h0, zero_add, mean_scores, if_neg (by simp)]
      simp only [List.map_map, List.length_map]
      rfl

/-- A rubric scores map over the 8 criteria with mean exactly 7.5. -/
def scoresMean75 : List (String × ℚ) :=
  [("AgeAppropriateness", 8), ("ToneCalmness", 8), ("ImageryQuality", 8),
   ("SentenceSimplicity", 8), ("EmotionalClarity", 7), ("ProblemSolvingPresence", 7),
   ("StructureCompleteness", 7), ("SleepinessFactor", 7)]

/-- A rubric scores map over the 8 criteria with mean exactly 7.49. -/
def scoresMean749 : List (String × ℚ) :=
  [("AgeAppropriateness", 749/100), ("ToneCalmness", 749/100), ("ImageryQuality", 749/100),
   ("SentenceSimplicity", 749/100), ("EmotionalClarity", 749/100),
   ("ProblemSolvingPresence", 749/100), ("StructureCompleteness", 749/100),
   ("SleepinessFactor", 749/100)]

/-- C2: the Acceptance Evaluator is the pure function of the scores
map and the round index computed on src/main.py lines 289 to 292: it
accepts exactly when the arithmetic mean of the scores reaches 7.5 or
the round is the last allowed one (index 2 of MAX_ROUNDS = 3); an
empty scores map has mean 0; the decision expression evaluated inside
the judge loop on a well-formed numeric scores map agrees with it; a
mean of exactly 7.5 is accepted, a mean of 7.49 is rejected on the
non-final rounds, and any scores map is accepted on the final round. -/
theorem C2_acceptance_evaluator :
    (∀ (scores : List (String × ℚ)) (attempt : Nat),
      accept_story scores attempt = true ↔
        ((15 : ℚ) / 2 ≤ mean_scores scores ∨ attempt = 2)) ∧
    mean_scores [] = 0 ∧
    (∀ (fs : List (String × Frac)) (attempt : Nat), (∀ p ∈ fs, 0 < p.2.den) →
      ∃ a : Frac, pyAvg (Json.obj (fs.map (fun p => (p.1, Json.num p.2)))) = Except.ok a ∧
        (Frac.le ⟨15, 2⟩ a || attempt == 2) =
          accept_story (fs.map (fun p => (p.1, p.2.toRat))) attempt) ∧
    accept_story scoresMean75 0 = true ∧
    (accept_story scoresMean749 0 = false ∧ accept_story scoresMean749 1 = false) ∧
    (∀ scores : List (String × ℚ), accept_story scores 2 = true) := by
  refine ⟨?_, ?_, ?_, ?_, ⟨?_, ?_⟩, ?_⟩
  · intro scores attempt
    simp [accept_story, Nat.beq_eq_true_eq]
  · simp [mean_scores]
  · intro fs attempt h
    obtain ⟨a, hpy, hden, hrat⟩ := pyAvg_obj_num fs h
    refine ⟨a, hpy, ?_⟩
    have h15 : (0 : Nat) < (⟨15, 2⟩ : Frac).den := by norm_num
    have hle : Frac.le ⟨15, 2⟩ a = decide ((15 : ℚ) / 2 ≤ mean_scores (fs.map (fun p => (p.1, p.2.toRat)))) := by
      rcases hb : Frac.le ⟨15, 2⟩ a with _ | _
      · have : ¬ ((⟨15, 2⟩ : Frac).toRat ≤ a.toRat) := by
          intro hc
          rw [← Frac.le_iff h15 hden] at hc
          rw [hb] at hc
          exact Bool.false_ne_true hc
        rw [show ((⟨15, 2⟩ : Frac).toRat) = (15 : ℚ) / 2 by norm_num [Frac.toRat], hrat] at this
        simp [this]
      · have := (Frac.le_iff h15 hden).mp hb
        rw [show ((⟨15, 2⟩ : Frac).toRat) = (15 : ℚ) / 2 by norm_num [Frac.toRat], hrat] at this
        simp [this]
    rw [accept_story, hle]
  · rw [accept_story, Bool.or_eq_true]
    left
    rw [decide_eq_true_iff]
    norm_num [mean_scores, scoresMean75]
  · rw [accept_story]
    simp only [Bool.or_eq_false_iff]
    refine ⟨?_, rfl⟩
    rw [decide_eq_false_iff_not]
    norm_num [mean_scores, scoresMean749]
  · rw [accept_story]
    simp only [Bool.or_eq_false_iff]
    refine ⟨?_, rfl⟩
    rw [decide_eq_false_iff_not]
    norm_num [mean_scores, scoresMean749]
  · intro scores
    simp [accept_story]

/-- Witness for C2: the evaluator agreement instantiated on a concrete
one-entry numeric scores map at round 0, and the exact-7.5 boundary
case. -/
theorem C2_acceptance_evaluator_witness :
    (∃ a : Frac,
      pyAvg (Json.obj ([("AgeAppropriateness", (⟨8, 1⟩ : Frac))].map
        (fun p => (p.1, Json.num p.2)))) = Except.ok a ∧
      (Frac.le ⟨15, 2⟩ a || (0 : Nat) == 2) =
        accept_story ([("AgeAppropriateness", (⟨8, 1⟩ : Frac))].map
          (fun p => (p.1, p.2.toRat))) 0) ∧
    accept_story scoresMean75 0 = true :=
  ⟨C2_acceptance_evaluator.2.2.1 [("AgeAppropriateness", ⟨8, 1⟩)] 0 (by decide),
   C2_acceptance_evaluator.2.2.2.1⟩

/-- C4: the Response Parser is a total function (it never raises): a
direct parse that succeeds is returned as is; otherwise the greedy
first-brace-to-last-brace substring is tried; if that parses its value
is returned, if it fails the result is the tagged invalid_json error
object carrying the raw text, and if no candidate exists the result is
the tagged no_json error object carrying the raw text.  On the
spec example with a JSON object embedded in prose the parser returns
that object, and on garbage input it returns a tagged error object. -/
theorem C4_response_parsing :
    (∀ (t : String) (v : Json), pyLoads t = some v → parse_json_safe t = v) ∧
    (∀ (t c : String) (v : Json), pyLoads t = none → extractBraces t = some c →
      pyLoads c = some v → parse_json_safe t = v) ∧
    (∀ (t c : String), pyLoads t = none → extractBraces t = some c →
      pyLoads c = none → parse_json_safe t = errObj "invalid_json" t) ∧
    (∀ t : String, pyLoads t = none → extractBraces t = none →
      parse_json_safe t = errObj "no_json" t) ∧
    parse_json_safe "Here is the result: \x7b\"a\":1\x7d Thanks!" =
      Json.obj [("a", Json.num ⟨1, 1⟩)] ∧
    parse_json_safe "hello world" = errObj "no_json" "hello world" ∧
    parse_json_safe "\x7bnot json\x7d" = errObj "invalid_json" "\x7bnot json\x7d" := by
  refine ⟨?_, ?_, ?_, ?_, rfl, rfl, rfl⟩
  · intro t v h
    simp only [parse_json_safe, h]
  · intro t c v h1 h2 h3
    simp only [parse_json_safe, h1, h2, h3]
  · intro t c h1 h2 h3
    simp only [parse_json_safe, h1, h2, h3]
  · intro t h1 h2
    simp only [parse_json_safe, h1, h2]

/-- Witness for C4: the direct-parse branch applied to the input
consisting of a single JSON number. -/
theorem C4_response_parsing_witness :
    parse_json_safe "7" = Json.num ⟨7, 1⟩ :=
  C4_response_parsing.1 "7" (Json.num ⟨7, 1⟩) rfl

/-- Shape of the instrumented judge loop: it appends one round record
per iteration, with consecutive attempt indices starting at the initial
one, at most `fuel` of them, and a rejection (hence a rewrite) never
happens on attempt 2, where the decision rule force-accepts. -/
theorem judgeLoopAux_shape (o : Oracles) :
    ∀ (fuel a : Nat) (story : String) (v : Json) (tr : List Round),
      ∃ rounds : List Round,
        (judgeLoopAux o fuel a story v tr).1 = tr ++ rounds ∧
        rounds.map Round.attempt = List.range' a rounds.length ∧
        rounds.length ≤ fuel ∧
        (∀ r ∈ rounds, r.res.isReject = true → r.attempt ≠ 2) := by
  intro fuel
  induction fuel with
  | zero =>
    intro a story v tr
    exact ⟨[], by simp [judgeLoopAux], rfl, Nat.le_refl 0, by simp⟩
  | succ fuel ih =>
    intro a story v tr
    simp only [judgeLoopAux]
    split
    · exact ⟨[⟨a, RoundResult.err _⟩], rfl, by simp [List.range'],
        by simp only [List.length_cons, List.length_nil]; omega,
        by simp [RoundResult.isReject]⟩
    · rename_i raw hraw
      split
      · exact ⟨[⟨a, RoundResult.err _⟩], rfl, by simp [List.range'],
          by simp only [List.length_cons, List.length_nil]; omega,
          by simp [RoundResult.isReject]⟩
      · rename_i hasScores hsc
        split
        · exact ⟨[⟨a, RoundResult.err _⟩], rfl, by simp [List.range'],
            by simp only [List.length_cons, List.length_nil]; omega,
            by simp [RoundResult.isReject]⟩
        · rename_i avg havg
          split
          · exact ⟨[⟨a, RoundResult.accept _ _⟩], rfl, by simp [List.range'],
              by simp only [List.length_cons, List.length_nil]; omega,
              by simp [RoundResult.isReject]⟩
          · rename_i hdec
            have ha : a ≠ 2 := by
              intro h2
              subst h2
              simp at hdec
            split
            · exact ⟨[⟨a, RoundResult.err _⟩], rfl, by simp [List.range'],
                by simp only [List.length_cons, List.length_nil]; omega,
                by simp [RoundResult.isReject]⟩
            · split
              · exact ⟨[⟨a, RoundResult.reject _ _ (some _)⟩], rfl, by simp [List.range'],
                  by simp only [List.length_cons, List.length_nil]; omega,
                  by simpa [RoundResult.isReject] using ha⟩
              · rename_i story2 hrw
                obtain ⟨rounds, h1, h2, h3, h4⟩ := ih (a + 1) story2
                  (if hasScores = true then parse_json_safe raw else fallback_judgement)
                  (tr ++ [⟨a, RoundResult.reject (!hasScores) avg none⟩])
                refine ⟨⟨a, RoundResult.reject (!hasScores) avg none⟩ :: rounds, ?_, ?_, ?_, ?_⟩
                · rw [h1, List.append_assoc]
                  rfl
                · rw [List.map_cons, h2]
                  rfl
                · simpa using Nat.succ_le_succ h3
                · intro r hr
                  rcases List.mem_cons.mp hr with hr | hr
                  · subst hr
                    intro _
                    exact ha
                  · exact h4 r hr

/-- A trace whose attempts are consecutive from 0 and whose rejecting
rounds all avoid attempt 2 has at most two rejecting rounds. -/
theorem countRejects_le_two (rounds : List Round)
    (hmap : rounds.map Round.attempt = List.range' 0 rounds.length)
    (hlen : rounds.length ≤ 3)
    (hrej : ∀ r ∈ rounds, r.res.isReject = true → r.attempt ≠ 2) :
    countRejects rounds ≤ 2 := by
  have hsub : List.Sublist ((rounds.filter (fun r => r.res.isReject)).map Round.attempt)
      (rounds.map Round.attempt) := (List.filter_sublist rounds).map Round.attempt
  rw [hmap] at hsub
  have hnd : ((rounds.filter (fun r => r.res.isReject)).map Round.attempt).Nodup :=
    (List.nodup_range' 0 rounds.length).sublist hsub
  have hss : (rounds.filter (fun r => r.res.isReject)).map Round.attempt ⊆
      List.range' 0 2 := by
    intro x hx
    obtain ⟨r, hrf, rfl⟩ := List.mem_map.mp hx
    have hrr := List.mem_filter.mp hrf
    have hx2 : r.attempt ≠ 2 := hrej r hrr.1 hrr.2
    have hmem : r.attempt ∈ rounds.map Round.attempt := List.mem_map_of_mem _ hrr.1
    rw [hmap] at hmem
    have hlt := (List.mem_range'_1.mp hmem).2
    rw [List.mem_range'_1]
    omega
  have hle := (List.Nodup.subperm hnd hss).length_le
  rw [List.length_map] at hle
  rw [countRejects]
  simpa using hle

/-- C1: for every oracle (hence every sequence of judge responses,
including adversarial ones) the judge loop of
generate_and_refine_story performs at most MAX_ROUNDS = 3 judge
evaluations (one per recorded round), at most 2 rewrites (one per
rejecting round), the loop variable stays in [0, 2], and a rejection
never happens on the final allowed round: whenever round 2 reaches its
decision, the draft is force-accepted. -/
theorem C1_loop_bounds (o : Oracles) (story : String) :
    (judgeLoopAux o 3 0 story Json.null []).1.length ≤ 3 ∧
    countRejects (judgeLoopAux o 3 0 story Json.null []).1 ≤ 2 ∧
    (∀ r ∈ (judgeLoopAux o 3 0 story Json.null []).1, r.attempt < 3) ∧
    (∀ r ∈ (judgeLoopAux o 3 0 story Json.null []).1,
      r.res.isReject = true → r.attempt ≠ 2) := by
  obtain ⟨rounds, h1, h2, h3, h4⟩ := judgeLoopAux_shape o 3 0 story Json.null []
  rw [List.nil_append] at h1
  rw [h1]
  refine ⟨h3, countRejects_le_two rounds h2 h3 h4, ?_, h4⟩
  intro r hr
  have hmem : r.attempt ∈ rounds.map Round.attempt := List.mem_map_of_mem _ hr
  rw [h2] at hmem
  have := (List.mem_range'_1.mp hmem).2
  omega

/-- Witness for C1: the bounds instantiated on an adversarial oracle
whose judge always returns all-1 scores, together with the concrete
trace: exactly 3 evaluations, 2 rewrites, and a force-accept on the
final round. -/
theorem C1_loop_bounds_witness :
    ((judgeLoopAux (baseOracle "\x7b\"scores\": \x7b\"a\": 1\x7d\x7d") 3 0 "draft" Json.null []).1.length ≤ 3 ∧
     countRejects (judgeLoopAux (baseOracle "\x7b\"scores\": \x7b\"a\": 1\x7d\x7d") 3 0 "draft" Json.null []).1 ≤ 2 ∧
     (∀ r ∈ (judgeLoopAux (baseOracle "\x7b\"scores\": \x7b\"a\": 1\x7d\x7d") 3 0 "draft" Json.null []).1, r.attempt < 3) ∧
     (∀ r ∈ (judgeLoopAux (baseOracle "\x7b\"scores\": \x7b\"a\": 1\x7d\x7d") 3 0 "draft" Json.null []).1,
       r.res.isReject = true → r.attempt ≠ 2)) ∧
    (judgeLoopAux (baseOracle "\x7b\"scores\": \x7b\"a\": 1\x7d\x7d") 3 0 "draft" Json.null []).1 =
      [⟨0, RoundResult.reject false ⟨1, 1⟩ none⟩,
       ⟨1, RoundResult.reject false ⟨1, 1⟩ none⟩,
       ⟨2, RoundResult.accept false ⟨1, 1⟩⟩] :=
  ⟨C1_loop_bounds (baseOracle "\x7b\"scores\": \x7b\"a\": 1\x7d\x7d") "draft", rfl⟩

/-- Moving an element of a list to the front is a permutation. -/
theorem get_cons_eraseIdx_perm :
    ∀ {α : Type} (l : List α) (i : Fin l.length),
      List.Perm (l.get i :: l.eraseIdx i) l := by
  intro α l
  induction l with
  | nil => intro i; exact absurd i.isLt (by simp)
  | cons a t ih =>
    intro i
    match i with
    | ⟨0, _⟩ => simp [List.eraseIdx]
    | ⟨j + 1, hj⟩ =>
      have hj' : j < t.length := Nat.lt_of_succ_lt_succ hj
      have ihh := ih ⟨j, hj'⟩
      show List.Perm (t.get ⟨j, hj'⟩ :: a :: t.eraseIdx j) (a :: t)
      exact List.Perm.trans (List.Perm.swap a _ _) (ihh.cons a)

/-- A successful sample is a subpermutation of the pool. -/
theorem pySample_subperm {α : Type} :
    ∀ (k : Nat) (rand : Nat → Nat) (pool s : List α),
      pySample rand k pool = some s → List.Subperm s pool := by
  intro k
  induction k with
  | zero =>
    intro rand pool s h
    simp only [pySample, Option.some_inj] at h
    subst h
    exact List.nil_subperm
  | succ k ih =>
    intro rand pool s h
    rw [pySample] at h
    split at h
    · rename_i hpos
      cases hrec : pySample (fun n => rand (n + 1)) k (pool.eraseIdx (rand 0 % pool.length)) with
      | none => rw [hrec] at h; exact absurd h (by simp)
      | some rest =>
        rw [hrec] at h
        simp only [Option.some_inj] at h
        subst h
        obtain ⟨u, hup, hus⟩ := ih _ _ _ hrec
        refine List.Subperm.trans ⟨_, hup.cons _, hus.cons₂ _⟩ ?_
        exact (get_cons_eraseIdx_perm pool ⟨rand 0 % pool.length, Nat.mod_lt _ hpos⟩).subperm
    · exact absurd h (by simp)

/-- A successful sample has exactly the requested length. -/
theorem pySample_length {α : Type} :
    ∀ (k : Nat) (rand : Nat → Nat) (pool s : List α),
      pySample rand k pool = some s → s.length = k := by
  intro k
  induction k with
  | zero =>
    intro rand pool s h
    simp only [pySample, Option.some_inj] at h
    subst h
    rfl
  | succ k ih =>
    intro rand pool s h
    rw [pySample] at h
    split at h
    · cases hrec : pySample (fun n => rand (n + 1)) k (pool.eraseIdx (rand 0 % pool.length)) with
      | none => rw [hrec] at h; exact absurd h (by simp)
      | some rest =>
        rw [hrec] at h
        simp only [Option.some_inj] at h
        subst h
        simpa using ih _ _ _ hrec
    · exact absurd h (by simp)

/-- Sampling succeeds exactly when the pool is large enough. -/
theorem pySample_isSome {α : Type} :
    ∀ (k : Nat) (rand : Nat → Nat) (pool : List α), k ≤ pool.length →
      ∃ s, pySample rand k pool = some s := by
  intro k
  induction k with
  | zero => intro rand pool _; exact ⟨[], rfl⟩
  | succ k ih =>
    intro rand pool hk
    have hpos : 0 < pool.length := Nat.lt_of_lt_of_le (Nat.zero_lt_succ k) hk
    have hlen : (pool.eraseIdx (rand 0 % pool.length)).length = pool.length - 1 := by
      rw [List.length_eraseIdx]
      simp [Nat.mod_lt _ hpos]
    obtain ⟨rest, hrest⟩ := ih (fun n => rand (n + 1)) (pool.eraseIdx (rand 0 % pool.length))
      (by omega)
    refine ⟨pool.get ⟨rand 0 % pool.length, Nat.mod_lt _ hpos⟩ :: rest, ?_⟩
    rw [pySample, dif_pos hpos, hrest]

/-- Sampling fails exactly when the requested size exceeds the pool
(the ValueError of random.sample). -/
theorem pySample_eq_none {α : Type} :
    ∀ (k : Nat) (rand : Nat → Nat) (pool : List α), pool.length < k →
      pySample rand k pool = none := by
  intro k
  induction k with
  | zero => intro rand pool h; exact absurd h (by simp)
  | succ k ih =>
    intro rand pool hk
    rw [pySample]
    by_cases hpos : 0 < pool.length
    · rw [dif_pos hpos]
      have hlen : (pool.eraseIdx (rand 0 % pool.length)).length = pool.length - 1 := by
        rw [List.length_eraseIdx]
        simp [Nat.mod_lt _ hpos]
      rw [ih (fun n => rand (n + 1)) _ (by omega)]
    · rw [dif_neg hpos]

/-- The shuffle model produces a permutation of its input. -/
theorem pyShuffle_perm {α : Type} (rand : Nat → Nat) (l : List α) :
    List.Perm (pyShuffle rand l) l := by
  obtain ⟨s, hs⟩ := pySample_isSome l.length rand l (Nat.le_refl _)
  rw [pyShuffle, hs]
  have hsub := pySample_subperm l.length rand l s hs
  have hlen := pySample_length l.length rand l s hs
  exact hsub.perm_of_length_le (by omega)

/-- The theme catalog has no duplicate labels. -/
theorem THEMES_nodup : THEMES.Nodup := by decide

/-- C9: for every outcome of the random draws, select_themes returns
exactly 4 distinct labels: the mandatory theme plus 3 labels drawn
without replacement from the catalog minus the mandatory theme, in a
randomized (permuted) order; and the generalized selector fails with a
ValueError when the catalog minus the mandatory theme has fewer than 3
entries. -/
theorem C9_select_themes :
    (∀ randS randH : Nat → Nat, ∃ l : List String,
      select_themes randS randH = Except.ok l ∧
      l.length = 4 ∧ l.Nodup ∧ "Problem Solving" ∈ l ∧
      (∀ x ∈ l, x ∈ THEMES) ∧
      (∀ x ∈ l, x ≠ "Problem Solving" →
        x ∈ THEMES.filter (fun t => t != "Problem Solving"))) ∧
    (∀ (catalog : List String) (randS randH : Nat → Nat),
      (catalog.filter (fun t => t != "Problem Solving")).length < 3 →
      select_themes_from catalog randS randH = Except.error Err.valueError) := by
  constructor
  · intro randS randH
    have hlen : (THEMES.filter (fun t => t != "Problem Solving")).length = 29 := rfl
    obtain ⟨chosen, hchosen⟩ :=
      pySample_isSome 3 randS (THEMES.filter (fun t => t != "Problem Solving")) (by omega)
    have hsub := pySample_subperm 3 randS _ chosen hchosen
    have hclen := pySample_length 3 randS _ chosen hchosen
    have hothers_nodup : (THEMES.filter (fun t => t != "Problem Solving")).Nodup :=
      THEMES_nodup.filter _
    have hchosen_nodup : chosen.Nodup := by
      obtain ⟨u, hup, hus⟩ := hsub
      exact hup.nodup_iff.mp (hothers_nodup.sublist hus)
    have hchosen_sub : ∀ x ∈ chosen, x ∈ THEMES.filter (fun t => t != "Problem Solving") :=
      fun x hx => hsub.subset hx
    have hps_not : "Problem Solving" ∉ chosen := by
      intro hmem
      have := hchosen_sub _ hmem
      rw [List.mem_filter] at this
      simp at this
    have hpre_nodup : (chosen ++ ["Problem Solving"]).Nodup := by
      rw [List.nodup_append]
      refine ⟨hchosen_nodup, List.nodup_singleton _, ?_⟩
      intro x hx hx2
      rw [List.mem_singleton] at hx2
      subst hx2
      exact hps_not hx
    have hperm := pyShuffle_perm randH (chosen ++ ["Problem Solving"])
    refine ⟨pyShuffle randH (chosen ++ ["Problem Solving"]), ?_, ?_, ?_, ?_, ?_, ?_⟩
    · rw [select_themes, select_themes_from, hchosen]
    · rw [hperm.length_eq]
      simp [hclen]
    · exact hperm.nodup_iff.mpr hpre_nodup
    · rw [hperm.mem_iff]
      simp
    · intro x hx
      rw [hperm.mem_iff, List.mem_append] at hx
      rcases hx with hx | hx
      · have := hchosen_sub _ hx
        exact List.mem_of_mem_filter this
      · rw [List.mem_singleton] at hx
        subst hx
        decide
    · intro x hx hne
      rw [hperm.mem_iff, List.mem_append] at hx
      rcases hx with hx | hx
      · exact hchosen_sub _ hx
      · rw [List.mem_singleton] at hx
        exact absurd hx hne
  · intro catalog randS randH hshort
    rw [select_themes_from, pySample_eq_none 3 randS _ hshort]

/-- Witness for C9: the selection evaluated on the constant-zero
streams, and the failure clause on a one-element catalog. -/
theorem C9_select_themes_witness :
    (∃ l : List String,
      select_themes (fun _ => 0) (fun _ => 0) = Except.ok l ∧
      l.length = 4 ∧ l.Nodup ∧ "Problem Solving" ∈ l ∧
      (∀ x ∈ l, x ∈ THEMES) ∧
      (∀ x ∈ l, x ≠ "Problem Solving" →
        x ∈ THEMES.filter (fun t => t != "Problem Solving"))) ∧
    select_themes_from ["Adventure"] (fun _ => 0) (fun _ => 0) = Except.error Err.valueError :=
  ⟨C9_select_themes.1 (fun _ => 0) (fun _ => 0),
   C9_select_themes.2 ["Adventure"] (fun _ => 0) (fun _ => 0) (by decide)⟩

/-- Binding a successful Except value applies the continuation. -/
theorem exceptBind_ok {ε α β : Type} (x : α) (f : α → Except ε β) :
    (Except.ok x : Except ε α) >>= f = f x := rfl

/-- Binding a failed Except value keeps the failure. -/
theorem exceptBind_err {ε α β : Type} (e : ε) (f : α → Except ε β) :
    (Except.error e : Except ε α) >>= f = Except.error e := rfl

/-- Theme selection on the real catalog always succeeds: the catalog
minus the mandatory theme has 29 entries, which is at least 3. -/
theorem select_themes_ok (randS randH : Nat → Nat) :
    ∃ l, select_themes randS randH = Except.ok l := by
  have hlen : (THEMES.filter (fun t => t != "Problem Solving")).length = 29 := rfl
  obtain ⟨chosen, hchosen⟩ :=
    pySample_isSome 3 randS (THEMES.filter (fun t => t != "Problem Solving")) (by omega)
  exact ⟨_, by rw [select_themes, select_themes_from, hchosen]⟩

/-- C5: a failure of the text-generation client anywhere in the
refinement pipeline is not caught and not retried: if the story
drafting call fails the whole request fails with that error, if the
judge call of any round fails the loop result is that error, if the
rewrite call of a rejecting round fails the loop result is that error,
and a failing loop makes the whole request fail, so no fragmentary result
(no story) is ever returned alongside an error. -/
theorem C5_generation_error_fatal :
    (∀ (o : Oracles) (input : String) (e : Err),
      (∀ a b c d, o.storyGen a b c d = Except.error e) →
      generate_and_refine_story o input = Except.error e) ∧
    (∀ (o : Oracles) (fuel attempt : Nat) (story : String) (v : Json) (tr : List Round) (e : Err),
      o.judgeRaw attempt story = Except.error e →
      (judgeLoopAux o (fuel + 1) attempt story v tr).2 = Except.error e) ∧
    (∀ (o : Oracles) (fuel attempt : Nat) (story : String) (v : Json) (tr : List Round)
      (raw : String) (hasS : Bool) (scoresJ : Json) (avg : Frac) (revsJ revs : Json) (e : Err),
      o.judgeRaw attempt story = Except.ok raw →
      pyContains "scores" (parse_json_safe raw) = Except.ok hasS →
      pyGet (if hasS then parse_json_safe raw else fallback_judgement) "scores"
        (Json.obj []) = Except.ok scoresJ →
      pyAvg scoresJ = Except.ok avg →
      (Frac.le ⟨15, 2⟩ avg || attempt == 2) = false →
      pyGet (if hasS then parse_json_safe raw else fallback_judgement) "revisions"
        (Json.arr []) = Except.ok revsJ →
      pySlice5 revsJ = Except.ok revs →
      o.rewriteGen attempt story revs = Except.error e →
      (judgeLoopAux o (fuel + 1) attempt story v tr).2 = Except.error e) ∧
    (∀ (o : Oracles) (input st : String) (th : List String) (e : Err),
      select_themes o.randThemes o.randShuffle = Except.ok th →
      o.storyGen input (detect_mood input) th (select_setting o.randSetting) = Except.ok st →
      (judgeLoopAux o 3 0 st Json.null []).2 = Except.error e →
      generate_and_refine_story o input = Except.error e) := by
  refine ⟨?_, ?_, ?_, ?_⟩
  · intro o input e h
    obtain ⟨th, hth⟩ := select_themes_ok o.randThemes o.randShuffle
    simp only [generate_and_refine_story, hth, exceptBind_ok, h, exceptBind_err]
  · intro o fuel attempt story v tr e h
    simp only [judgeLoopAux, h]
  · intro o fuel attempt story v tr raw hasS scoresJ avg revsJ revs e
      hraw hcon hget havg hdec hrev hslice hrw
    simp only [judgeLoopAux, hraw, hcon, hget, exceptBind_ok, havg, hdec, hrev, hslice, hrw,
      Bool.false_eq_true, if_false]
  · intro o input st th e hth hst hloop
    simp only [generate_and_refine_story, hth, exceptBind_ok, hst, hloop]

/-- An oracle whose story-drafting call always fails. -/
def failOracle : Oracles :=
  { baseOracle "x" with storyGen := fun _ _ _ _ => Except.error (Err.gen "boom") }

/-- Witness for C5: a failing drafting call makes the whole request
fail with the same error. -/
theorem C5_generation_error_fatal_witness :
    generate_and_refine_story failOracle "please tell a story" = Except.error (Err.gen "boom") :=
  C5_generation_error_fatal.1 failOracle "please tell a story" (Err.gen "boom")
    (fun _ _ _ _ => rfl)

/-- C6: after the loop terminates with a story, the two derivation
calls are independent: given the raw client outputs for cards and
soundtrack, each slot of the result is a function of its own raw text
only (parsed with the tolerant parser, so a parse failure puts a
tagged error object in that slot), and the finalized story and verdict
are delivered unchanged regardless of what either derivation parse
produced. -/
theorem C6_derivations_independent :
    (∀ (o : Oracles) (input st fs : String) (jj : Json) (tr : List Round)
      (th : List String) (cr sr : String),
      select_themes o.randThemes o.randShuffle = Except.ok th →
      o.storyGen input (detect_mood input) th (select_setting o.randSetting) = Except.ok st →
      judgeLoopAux o 3 0 st Json.null [] = (tr, Except.ok (fs, jj)) →
      o.cardsGen fs = Except.ok cr →
      o.soundGen (detect_mood input) (select_setting o.randSetting) = Except.ok sr →
      generate_and_refine_story o input = Except.ok
        ⟨fs, jj,
         (match pyLoads cr with | some v => v | none => parse_json_safe cr),
         (match pyLoads sr with | some v => v | none => parse_json_safe sr),
         detect_mood input, th, select_setting o.randSetting, tr⟩) ∧
    (∀ t : String, pyLoads t = none →
      (match pyLoads t with | some v => v | none => parse_json_safe t) = parse_json_safe t) := by
  constructor
  · intro o input st fs jj tr th cr sr hth hst hloop hcr hsr
    simp only [generate_and_refine_story, hth, exceptBind_ok, hst, hloop, hcr, hsr]
  · intro t h
    simp only [h]

/-- Witness for C6: oracle with an immediately accepted draft and
unparseable derivation outputs; the story is delivered and both slots
carry tagged error objects. -/
theorem C6_derivations_independent_witness :
    generate_and_refine_story (baseOracle "\x7b\"scores\": \x7b\"a\": 9\x7d\x7d") "tell me a story" =
      Except.ok
        ⟨"draft", Json.obj [("scores", Json.obj [("a", Json.num ⟨9, 1⟩)])],
         errObj "no_json" "no json here", errObj "no_json" "also not json",
         "calm", ["Adventure", "Animal Friends", "Friendship", "Problem Solving"], "Farm",
         [⟨0, RoundResult.accept false ⟨9, 1⟩⟩]⟩ :=
  C6_derivations_independent.1 (baseOracle "\x7b\"scores\": \x7b\"a\": 9\x7d\x7d")
    "tell me a story" "draft" "draft"
    (Json.obj [("scores", Json.obj [("a", Json.num ⟨9, 1⟩)])])
    [⟨0, RoundResult.accept false ⟨9, 1⟩⟩]
    ["Adventure", "Animal Friends", "Friendship", "Problem Solving"]
    "no json here" "also not json" rfl rfl rfl rfl rfl

/-- The substring test agrees with the infix relation on lists. -/
theorem hasSub_iff_substring (n : List Char) :
    ∀ h : List Char, hasSub n h = true ↔ n <:+: h := by
  intro h
  induction h with
  | nil =>
    rw [hasSub, List.isPrefixOf_iff_prefix, List.prefix_nil, List.infix_nil]
  | cons c t ih =>
    rw [hasSub, List.infix_cons_iff, Bool.or_eq_true, List.isPrefixOf_iff_prefix, ih]

/-- C7: if exactly one mood label occurs verbatim as a substring of
the lowercased input, detect_mood returns that mood regardless of any
keyword scores: the direct-mention loop (fixed priority order calm,
anxious, excited, sad, curious, playful, first match wins) fires
before the keyword-score maximum is consulted. -/
theorem C7_direct_mention_override (t m : String)
    (hm : m ∈ MOOD_PRIORITY)
    (hyes : m.toList <:+: pyLower t)
    (hno : ∀ m2 ∈ MOOD_PRIORITY, m2 ≠ m → ¬ (m2.toList <:+: pyLower t)) :
    detect_mood t = m := by
  have hyes2 : hasSub m.toList (pyLower t) = true := (hasSub_iff_substring _ _).mpr hyes
  have hno2 : ∀ m2, m2 ∈ MOOD_PRIORITY → m2 ≠ m → hasSub m2.toList (pyLower t) = false := by
    intro m2 h2 hne
    cases hb : hasSub m2.toList (pyLower t) with
    | false => rfl
    | true => exact absurd ((hasSub_iff_substring _ _).mp hb) (hno m2 h2 hne)
  simp only [MOOD_PRIORITY, List.mem_cons, List.not_mem_nil, or_false] at hm
  rcases hm with rfl | rfl | rfl | rfl | rfl | rfl
  · simp only [detect_mood, MOOD_PRIORITY, List.find?, hyes2]
  · have h1 := hno2 "calm" (by decide) (by decide)
    simp only [detect_mood, MOOD_PRIORITY, List.find?, h1, hyes2]
  · have h1 := hno2 "calm" (by decide) (by decide)
    have h2 := hno2 "anxious" (by decide) (by decide)
    simp only [detect_mood, MOOD_PRIORITY, List.find?, h1, h2, hyes2]
  · have h1 := hno2 "calm" (by decide) (by decide)
    have h2 := hno2 "anxious" (by decide) (by decide)
    have h3 := hno2 "excited" (by decide) (by decide)
    simp only [detect_mood, MOOD_PRIORITY, List.find?, h1, h2, h3, hyes2]
  · have h1 := hno2 "calm" (by decide) (by decide)
    have h2 := hno2 "anxious" (by decide) (by decide)
    have h3 := hno2 "excited" (by decide) (by decide)
    have h4 := hno2 "sad" (by decide) (by decide)
    simp only [detect_mood, MOOD_PRIORITY, List.find?, h1, h2, h3, h4, hyes2]
  · have h1 := hno2 "calm" (by decide) (by decide)
    have h2 := hno2 "anxious" (by decide) (by decide)
    have h3 := hno2 "excited" (by decide) (by decide)
    have h4 := hno2 "sad" (by decide) (by decide)
    have h5 := hno2 "curious" (by decide) (by decide)
    simp only [detect_mood, MOOD_PRIORITY, List.find?, h1, h2, h3, h4, h5, hyes2]

/-- Witness for C7: an input mentioning exactly the label anxious (in
capitals, exercising the case normalization). -/
theorem C7_direct_mention_override_witness :
    detect_mood "I am ANXIOUS today" = "anxious" :=
  C7_direct_mention_override "I am ANXIOUS today" "anxious" (by decide) (by decide) (by decide)

/-- C8: on the empty input, and on any input that contains no mood
label and no mood keyword as a substring of its lowercased text,
detect_mood does not fail and returns the fixed default calm. -/
theorem C8_default_calm :
    (∀ t : String,
      (∀ m ∈ MOOD_PRIORITY, ¬ (m.toList <:+: pyLower t)) →
      (∀ p ∈ MOOD_KEYWORDS, ∀ kw ∈ p.2, ¬ (kw.toList <:+: pyLower t)) →
      detect_mood t = "calm") ∧
    detect_mood "" = "calm" := by
  constructor
  · intro t hlab hkw
    have hlabF : ∀ m, m ∈ MOOD_PRIORITY → hasSub m.toList (pyLower t) = false := by
      intro m hm
      cases hb : hasSub m.toList (pyLower t) with
      | false => rfl
      | true => exact absurd ((hasSub_iff_substring _ _).mp hb) (hlab m hm)
    have hfind : MOOD_PRIORITY.find? (fun m => hasSub m.toList (pyLower t)) = none := by
      rw [List.find?_eq_none]
      intro x hx
      rw [hlabF x hx]
      simp
    have hzero : ∀ p, p ∈ MOOD_KEYWORDS →
        (p.2.filter (fun kw => hasSub kw.toList (pyLower t))).length = 0 := by
      intro p hp
      rw [List.length_eq_zero, List.filter_eq_nil_iff]
      intro kw hkw2
      cases hb : hasSub kw.toList (pyLower t) with
      | false => simp
      | true => exact absurd ((hasSub_iff_substring _ _).mp hb) (hkw p hp kw hkw2)
    have hz1 := hzero ("calm", ["calm", "sleepy", "tired", "cozy", "bedtime", "relaxed"]) (by decide)
    have hz2 := hzero ("anxious", ["scared", "lost", "anxious", "afraid", "worried", "nervous"]) (by decide)
    have hz3 := hzero ("excited", ["excited", "adventure", "energetic", "happy", "bouncy"]) (by decide)
    have hz4 := hzero ("sad", ["sad", "down", "lonely", "miss", "cry"]) (by decide)
    have hz5 := hzero ("curious", ["curious", "wonder", "ask", "how", "why", "what"]) (by decide)
    have hz6 := hzero ("playful", ["fun", "silly", "joke", "play"]) (by decide)
    simp only [detect_mood, MOOD_KEYWORDS, List.map_cons, List.map_nil, hfind,
      hz1, hz2, hz3, hz4, hz5, hz6]
    rfl
  · rfl

/-- Witness for C8: a keyword-free input. -/
theorem C8_default_calm_witness :
    detect_mood "xyzzy" = "calm" :=
  C8_default_calm.1 "xyzzy" (by decide) (by decide)

/-- The average computation on the fallback verdict: the 8 fixed
scores sum to 58 and are divided by 8. -/
theorem fallback_avg :
    (do pyAvg (← pyGet fallback_judgement "scores" (Json.obj [])) : Except Err Frac) =
      Except.ok ⟨58, 8⟩ := rfl

/-- The fallback decision value: 58/8 = 7.25 is below the 7.5
threshold. -/
theorem fallback_le : Frac.le ⟨15, 2⟩ ⟨58, 8⟩ = false := rfl

/-- The revision slice of the fallback verdict. -/
theorem fallback_revs :
    (do pySlice5 (← pyGet fallback_judgement "revisions" (Json.arr [])) : Except Err Json) =
      Except.ok (Json.arr [Json.str "Ensure the problem solving steps are explicit.",
        Json.str "Make ending more calming."]) := rfl

/-- One loop iteration whose judge output makes the membership test
for a scores key come out false: the fallback verdict is substituted,
the average is 58/8 = 7.25, and the round reaches its decision without
error: force-accept on attempt 2, otherwise reject followed by a
rewrite call. -/
theorem fallback_round (o : Oracles) (fuel attempt : Nat) (story : String) (v : Json)
    (tr : List Round) (raw : String)
    (hraw : o.judgeRaw attempt story = Except.ok raw)
    (hns : pyContains "scores" (parse_json_safe raw) = Except.ok false) :
    judgeLoopAux o (fuel + 1) attempt story v tr =
      if attempt == 2 then
        (tr ++ [⟨attempt, RoundResult.accept true ⟨58, 8⟩⟩],
         Except.ok (story, fallback_judgement))
      else
        match o.rewriteGen attempt story
          (Json.arr [Json.str "Ensure the problem solving steps are explicit.",
            Json.str "Make ending more calming."]) with
        | Except.ok story2 =>
          judgeLoopAux o fuel (attempt + 1) story2 fallback_judgement
            (tr ++ [⟨attempt, RoundResult.reject true ⟨58, 8⟩ none⟩])
        | Except.error e =>
          (tr ++ [⟨attempt, RoundResult.reject true ⟨58, 8⟩ (some e)⟩], Except.error e) := by
  simp only [judgeLoopAux, hraw, hns, Bool.false_eq_true, if_false, Bool.not_false,
    fallback_avg, fallback_le, fallback_revs, Bool.false_or]
  split
  · rfl
  · cases o.rewriteGen attempt story
      (Json.arr [Json.str "Ensure the problem solving steps are explicit.",
        Json.str "Make ending more calming."]) <;> rfl

/-- Counterexample to C3 as stated: when the judge answers with the
text 5, the output parses (to the number 5) and the parsed result has
no scores key, yet the loop does not substitute the fallback verdict:
the membership test for a scores key raises a TypeError on a number,
which surfaces to the caller as the failure of the whole request, and
the round trace shows an errored round instead of a usable verdict. -/
theorem C3_judge_fallback_counterexample :
    pyLoads "5" = some (Json.num ⟨5, 1⟩) ∧
    pyContains "scores" (parse_json_safe "5") = Except.error Err.typeError ∧
    judgeLoopAux (baseOracle "5") 3 0 "draft" Json.null [] =
      ([⟨0, RoundResult.err Err.typeError⟩], Except.error Err.typeError) ∧
    generate_and_refine_story (baseOracle "5") "tell me a story" =
      Except.error Err.typeError :=
  ⟨rfl, rfl, rfl, rfl⟩

/-- C3 (amended): whenever the judge output fails to parse (the
tagged error object carries no scores key), or more generally whenever
the membership test for a scores key on the parsed result is defined
and negative, the round substitutes the fixed fallback verdict and
reaches its decision with a usable verdict (average 58/8), without
surfacing any error; but a parsed result that is a number, boolean or
null makes the membership test raise a TypeError that propagates. -/
theorem C3_judge_fallback_amended :
    (∀ kind raw : String, pyContains "scores" (errObj kind raw) = Except.ok false) ∧
    (∀ (o : Oracles) (fuel attempt : Nat) (story : String) (v : Json) (tr : List Round)
      (raw : String),
      o.judgeRaw attempt story = Except.ok raw →
      pyContains "scores" (parse_json_safe raw) = Except.ok false →
      judgeLoopAux o (fuel + 1) attempt story v tr =
        if attempt == 2 then
          (tr ++ [⟨attempt, RoundResult.accept true ⟨58, 8⟩⟩],
           Except.ok (story, fallback_judgement))
        else
          match o.rewriteGen attempt story
            (Json.arr [Json.str "Ensure the problem solving steps are explicit.",
              Json.str "Make ending more calming."]) with
          | Except.ok story2 =>
            judgeLoopAux o fuel (attempt + 1) story2 fallback_judgement
              (tr ++ [⟨attempt, RoundResult.reject true ⟨58, 8⟩ none⟩])
          | Except.error e =>
            (tr ++ [⟨attempt, RoundResult.reject true ⟨58, 8⟩ (some e)⟩], Except.error e)) := by
  constructor
  · intro kind raw
    rfl
  · intro o fuel attempt story v tr raw hraw hns
    exact fallback_round o fuel attempt story v tr raw hraw hns

/-- Witness for the amended C3: a gibberish judge answer on round 0
substitutes the fallback verdict, rejects, and continues with the
rewritten draft. -/
theorem C3_judge_fallback_amended_witness :
    judgeLoopAux (baseOracle "gibberish") 3 0 "draft" Json.null [] =
      judgeLoopAux (baseOracle "gibberish") 2 1 "rewrite0" fallback_judgement
        [⟨0, RoundResult.reject true ⟨58, 8⟩ none⟩] :=
  C3_judge_fallback_amended.2 (baseOracle "gibberish") 2 0 "draft" Json.null [] "gibberish"
    rfl rfl

/-- Counterexample to C10 as stated: the judge answer null parses and
the parsed result has no scores key, on the non-final round 0; yet the
acceptance decision is not reject and no rewrite is performed: the
round raises a TypeError that ends the request. -/
theorem C10_fallback_reject_counterexample :
    pyLoads "null" = some Json.null ∧
    judgeLoopAux (baseOracle "null") 3 0 "draft" Json.null [] =
      ([⟨0, RoundResult.err Err.typeError⟩], Except.error Err.typeError) :=
  ⟨rfl, rfl⟩

/-- C10 (amended): the fallback verdict has the 8 fixed scores summing
to 58, average 58/8 = 29/4 = 7.25, strictly below the 7.5 threshold;
therefore whenever the fallback verdict is actually substituted (the
membership test for a scores key on the parsed judge output is defined
and negative) on a non-final round, the decision is reject and the
rewrite call is made; on the final round the fallback verdict is
accepted only by force-accept. -/
theorem C10_fallback_below_threshold :
    pyGet fallback_judgement "scores" (Json.obj []) = Except.ok (Json.obj
      [("AgeAppropriateness", Json.num ⟨8, 1⟩), ("ToneCalmness", Json.num ⟨7, 1⟩),
       ("ImageryQuality", Json.num ⟨7, 1⟩), ("SentenceSimplicity", Json.num ⟨7, 1⟩),
       ("EmotionalClarity", Json.num ⟨7, 1⟩), ("ProblemSolvingPresence", Json.num ⟨8, 1⟩),
       ("StructureCompleteness", Json.num ⟨7, 1⟩), ("SleepinessFactor", Json.num ⟨7, 1⟩)]) ∧
    pyAvg (Json.obj
      [("AgeAppropriateness", Json.num ⟨8, 1⟩), ("ToneCalmness", Json.num ⟨7, 1⟩),
       ("ImageryQuality", Json.num ⟨7, 1⟩), ("SentenceSimplicity", Json.num ⟨7, 1⟩),
       ("EmotionalClarity", Json.num ⟨7, 1⟩), ("ProblemSolvingPresence", Json.num ⟨8, 1⟩),
       ("StructureCompleteness", Json.num ⟨7, 1⟩), ("SleepinessFactor", Json.num ⟨7, 1⟩)]) =
      Except.ok ⟨58, 8⟩ ∧
    (⟨58, 8⟩ : Frac).toRat = 29 / 4 ∧
    ¬ ((15 : ℚ) / 2 ≤ (29 : ℚ) / 4) ∧
    Frac.le ⟨15, 2⟩ ⟨58, 8⟩ = false ∧
    (∀ (o : Oracles) (fuel attempt : Nat) (story : String) (v : Json) (tr : List Round)
      (raw : String),
      attempt ≠ 2 →
      o.judgeRaw attempt story = Except.ok raw →
      pyContains "scores" (parse_json_safe raw) = Except.ok false →
      judgeLoopAux o (fuel + 1) attempt story v tr =
        match o.rewriteGen attempt story
          (Json.arr [Json.str "Ensure the problem solving steps are explicit.",
            Json.str "Make ending more calming."]) with
        | Except.ok story2 =>
          judgeLoopAux o fuel (attempt + 1) story2 fallback_judgement
            (tr ++ [⟨attempt, RoundResult.reject true ⟨58, 8⟩ none⟩])
        | Except.error e =>
          (tr ++ [⟨attempt, RoundResult.reject true ⟨58, 8⟩ (some e)⟩], Except.error e)) ∧
    (∀ (o : Oracles) (fuel : Nat) (story : String) (v : Json) (tr : List Round)
      (raw : String),
      o.judgeRaw 2 story = Except.ok raw →
      pyContains "scores" (parse_json_safe raw) = Except.ok false →
      judgeLoopAux o (fuel + 1) 2 story v tr =
        (tr ++ [⟨2, RoundResult.accept true ⟨58, 8⟩⟩],
         Except.ok (story, fallback_judgement))) := by
  refine ⟨rfl, rfl, by norm_num [Frac.toRat], by norm_num, rfl, ?_, ?_⟩
  · intro o fuel attempt story v tr raw ha hraw hns
    rw [fallback_round o fuel attempt story v tr raw hraw hns]
    have hbeq : (attempt == 2) = false := beq_eq_false_iff_ne.mpr ha
    simp only [hbeq, Bool.false_eq_true, if_false]
  · intro o fuel story v tr raw hraw hns
    rw [fallback_round o fuel 2 story v tr raw hraw hns]
    rfl

/-- Witness for the amended C10: a non-parsing judge answer on round 0
leads to reject plus rewrite, and on round 2 to a force-accept of the
fallback verdict. -/
theorem C10_fallback_below_threshold_witness :
    (judgeLoopAux (baseOracle "bad judge output") 3 0 "draft" Json.null [] =
      judgeLoopAux (baseOracle "bad judge output") 2 1 "rewrite0" fallback_judgement
        [⟨0, RoundResult.reject true ⟨58, 8⟩ none⟩]) ∧
    (judgeLoopAux (baseOracle "bad judge output") 1 2 "draft2" Json.null [] =
      ([⟨2, RoundResult.accept true ⟨58, 8⟩⟩],
       Except.ok ("draft2", fallback_judgement))) :=
  ⟨C10_fallback_below_threshold.2.2.2.2.2.1 (baseOracle "bad judge output") 2 0 "draft"
      Json.null [] "bad judge output" (by decide) rfl rfl,
   C10_fallback_below_threshold.2.2.2.2.2.2 (baseOracle "bad judge output") 0 "draft2"
      Json.null [] "bad judge output" rfl rfl⟩
